import Mathlib

/-!
Verification of the Solana Wallet Activity API against its specification.

The development shallowly embeds the Python source:
- `app/services/solana.py`: the RPC transport (`callRpc` models `_call_rpc`),
  the client methods (`get_balance`, `get_transaction_count`, `get_signatures`)
  and the converters (`lamports_to_sol`, `timestamp_to_datetime`);
- `app/routers/wallet.py`: the two route handlers (`get_wallet_summary`,
  `get_wallet_transactions`) including the per-signature processing loop
  (`processEntry`, `processSignatures`);
- `app/models/schemas.py`: the pydantic address validator
  (`schemaValidAddress`) that runs when a response object is constructed.

Modelling conventions, stated once here:
- JSON values are the inductive `Json`; Python `None` and JSON null are both
  `Json.null`. Python truthiness is `Json.truthy`.
- Exceptions are `Except PyExc`: `PyExc.rpc` is `SolanaRPCError` (surfaced by
  the routes as HTTP 503), `PyExc.other` any other exception (surfaced as 500).
- `datetime` objects are represented by their Unix seconds (`Int`); this is
  faithful because the code only ever builds them via
  `datetime.fromtimestamp(t, tz=utc)` and never reads fields back.
- Python floats are modelled as exact rationals (`ℚ`); see `lamports_to_sol`.
- The network is an oracle passed in as an argument: the result of each
  HTTP attempt, or of each already-wrapped client call, is a parameter, and
  each function also reports how many RPC/network calls it made, so that
  "before any network call" claims are statements about that count.
-/

/-- A JSON value (also standing for the Python object a parsed body becomes).
Numbers are integers: every numeric field the code touches (lamports, fees,
slots, block times) is an integer in the upstream protocol. -/
inductive Json where
  | null
  | bool (b : Bool)
  | num (n : Int)
  | str (s : String)
  | arr (elems : List Json)
  | obj (entries : List (String × Json))

/-- Python truthiness of a value: `bool(x)` as the `if x:` tests use it. -/
def Json.truthy : Json → Bool
  | .null => false
  | .bool b => b
  | .num n => n != 0
  | .str s => !s.isEmpty
  | .arr xs => !xs.isEmpty
  | .obj kvs => !kvs.isEmpty

/-- An exception: `SolanaRPCError` (`rpc`) or any other Python exception
(`other`, carrying the exception's class name). The routes translate the
former to HTTP 503 and the latter to HTTP 500. -/
inductive PyExc where
  | rpc (msg : String)
  | other (msg : String)

/-- First value stored under a key, as dict lookup finds it (the modelled
dicts come from parsed JSON, so keys are unique). -/
def lookupKV : List (String × Json) → String → Option Json
  | [], _ => none
  | (k, v) :: rest, key => if k = key then some v else lookupKV rest key

/-- Python `d.get(key, default)` on a dict known to be a dict. -/
def lookupD (kvs : List (String × Json)) (key : String) (d : Json) : Json :=
  (lookupKV kvs key).getD d

/-- Python `x.get(key, default)` on an arbitrary value: an `AttributeError`
when `x` is not a dict. -/
def dictGetD (j : Json) (key : String) (d : Json) : Except PyExc Json :=
  match j with
  | Json.obj kvs => .ok (lookupD kvs key d)
  | _ => .error (PyExc.other "AttributeError")

/-- Python `str(x)` as the f-strings apply it to interpolated values
(approximate for containers, whose rendering no claim inspects). -/
def pyStr : Json → String
  | Json.null => "None"
  | Json.bool true => "True"
  | Json.bool false => "False"
  | Json.num n => toString n
  | Json.str s => s
  | Json.arr _ => "[...]"
  | Json.obj _ => "\x7b...\x7d"

/-- Python `int(x)`: ints pass through, bools coerce, numeric strings parse
(`ValueError` otherwise), anything else is a `TypeError`. -/
def pyInt : Json → Except PyExc Int
  | Json.num n => .ok n
  | Json.bool b => .ok (if b then 1 else 0)
  | Json.str s =>
    match s.trim.toInt? with
    | some n => .ok n
    | none => .error (PyExc.other "ValueError")
  | _ => .error (PyExc.other "TypeError")

/-- True exactly for a raised `SolanaRPCError`. -/
def isRpcFailure : Except PyExc Json → Bool
  | .error (PyExc.rpc _) => true
  | _ => false

/-! ## RPC transport: `SolanaClient._call_rpc` (app/services/solana.py) -/

/-- Outcome of one HTTP POST attempt inside `_call_rpc`:
- `timeout`: `httpx.TimeoutException`;
- `requestError`: any other `httpx.RequestError` (connection failures etc.);
- `httpStatusError`: a non-2xx response, on which `response.raise_for_status()`
  raises `httpx.HTTPStatusError` — in httpx's exception hierarchy that class
  is a sibling of `RequestError` (both extend `HTTPError`), so neither
  `except httpx.TimeoutException` nor `except httpx.RequestError` catches it;
- `response`: a 2xx response whose body parsed to the JSON object `body`
  (JSON-RPC replies are objects; unparseable bodies are not modelled, no
  claim reaches them). -/
inductive AttemptOutcome where
  | timeout
  | requestError (msg : String)
  | httpStatusError
  | response (body : List (String × Json))

/-- Handling of a parsed 2xx body inside the `try`: `if "error" in data`
raises `SolanaRPCError` built from `data.get("error", {}).get("message",
"Unknown error")` — when the error field's value is not a dict, that chained
`.get` itself raises `AttributeError`; otherwise the `result` field (absent
mapping to `None`) is returned. -/
def handleResponse (body : List (String × Json)) : Except PyExc Json :=
  match lookupKV body "error" with
  | some (Json.obj ekvs) =>
    .error (PyExc.rpc ("RPC error: " ++ pyStr (lookupD ekvs "message" (Json.str "Unknown error"))))
  | some _ => .error (PyExc.other "AttributeError")
  | none => .ok (lookupD body "result" Json.null)

/-- The `while retry_count < self.max_retries` loop of `_call_rpc`.
`made` counts HTTP attempts performed so far and `fuel = max_retries -
retry_count` counts the iterations the guard still allows; the test
`retry_count >= self.max_retries` after the increment is exactly `fuel = 0`
here. Exceptions the two `except` clauses do not catch (`HTTPStatusError`,
`AttributeError` from the error branch) leave the loop at once. Returns the
call's outcome and the number of attempts made. -/
def callRpcGo (attempts : Nat → AttemptOutcome) (maxRetries : Nat) (made : Nat) :
    Nat → Except PyExc Json × Nat
  | 0 => (.error (PyExc.rpc "Max retries exceeded"), made)
  | fuel + 1 =>
    match attempts made with
    | .response body => (handleResponse body, made + 1)
    | .httpStatusError => (.error (PyExc.other "HTTPStatusError"), made + 1)
    | .timeout =>
      if fuel = 0 then
        (.error (PyExc.rpc ("RPC request timed out after " ++ toString maxRetries ++ " retries")),
          made + 1)
      else callRpcGo attempts maxRetries (made + 1) fuel
    | .requestError m =>
      if fuel = 0 then
        (.error (PyExc.rpc ("RPC request failed: " ++ m)), made + 1)
      else callRpcGo attempts maxRetries (made + 1) fuel

/-- `SolanaClient._call_rpc`: the retry loop started with `retry_count = 0`,
fed by the oracle `attempts` giving each HTTP attempt's outcome. -/
def callRpc (attempts : Nat → AttemptOutcome) (maxRetries : Nat) :
    Except PyExc Json × Nat :=
  callRpcGo attempts maxRetries 0 maxRetries

/-! ## Converters (app/services/solana.py, app/config.py) -/

/-- `LAMPORTS_PER_SOL = 1_000_000_000` (app/config.py). -/
def LAMPORTS_PER_SOL : ℚ := 1000000000

/-- `SolanaClient.lamports_to_sol`: `lamports / LAMPORTS_PER_SOL`, Python
float division modelled as exact division in ℚ. There is no rounding in the
converter. (On the spec's test inputs the IEEE-754 double comparison agrees
with the exact rational one: both sides of each asserted equality are the
correctly rounded double of the same rational.) -/
def lamports_to_sol (lamports : Int) : ℚ :=
  (lamports : ℚ) / LAMPORTS_PER_SOL

/-- `SolanaClient.timestamp_to_datetime`: `None` propagates, otherwise the
UTC datetime for the given Unix seconds (represented by those seconds). -/
def timestamp_to_datetime : Option Int → Option Int
  | none => none
  | some t => some t

/-- `round(x, 9)` as the summary route applies it to the SOL balance. For
every value reachable there `x * 10^9` is an integer (the balance is an
integer number of lamports divided by `10^9`), so no rounding mode is ever
exercised; `round` is Mathlib's round on ℚ. -/
def round9 (q : ℚ) : ℚ :=
  ((round (q * 1000000000) : ℤ) : ℚ) / 1000000000

/-! ## Client methods (app/services/solana.py)

Each method wraps `_call_rpc`; its network behaviour is passed in as the
already-computed outcome of that one `_call_rpc` invocation (an oracle), and
each returns how many `_call_rpc` invocations it made (0 when a guard raised
first, 1 otherwise). The `except SolanaRPCError: raise` / `except Exception
as e: raise SolanaRPCError(...)` pattern of each method is the `wrapOther`
translation of non-RPC exceptions. -/

/-- Re-raise a `SolanaRPCError` as is; wrap any other exception into one with
the method's message prefix (the `except Exception` clauses). -/
def wrapOther (prefixMsg : String) : PyExc → PyExc
  | PyExc.rpc m => PyExc.rpc m
  | PyExc.other m => PyExc.rpc (prefixMsg ++ m)

/-- `SolanaClient.get_balance`: empty address raises before any call; a
`None` result is balance 0; a dict result yields `int(result.get("value",
0))`; any other result yields `int(result)`. -/
def get_balance (address : String) (rpcResult : Except PyExc Json) :
    Except PyExc Int × Nat :=
  if address.isEmpty then (.error (PyExc.rpc "Address cannot be empty"), 0)
  else
    match rpcResult with
    | .error e => (.error (wrapOther "Failed to fetch balance: " e), 1)
    | .ok Json.null => (.ok 0, 1)
    | .ok (Json.obj kvs) =>
      match pyInt (lookupD kvs "value" (Json.num 0)) with
      | .ok n => (.ok n, 1)
      | .error e => (.error (wrapOther "Failed to fetch balance: " e), 1)
    | .ok other =>
      match pyInt other with
      | .ok n => (.ok n, 1)
      | .error e => (.error (wrapOther "Failed to fetch balance: " e), 1)

/-- `SolanaClient.get_transaction_count`: one `getSignaturesForAddress` call
with `limit` 1000, whose result is null or an array of signature entries
(the method's upstream contract); the count is `len(signatures) if
signatures else 0`. -/
def get_transaction_count (address : String)
    (rpcResult : Except PyExc (Option (List Json))) : Except PyExc Nat × Nat :=
  if address.isEmpty then (.error (PyExc.rpc "Address cannot be empty"), 0)
  else
    match rpcResult with
    | .error e => (.error (wrapOther "Failed to fetch transaction count: " e), 1)
    | .ok none => (.ok 0, 1)
    | .ok (some xs) => (.ok (if xs.isEmpty then 0 else xs.length), 1)

/-- `SolanaClient.get_signatures`: guards on empty address and on `limit`
outside 1..1000 raise before any call; a falsy result (null or empty array)
becomes `[]` (`return result if result else []`). -/
def get_signatures (address : String) (limit : Nat)
    (rpcResult : Except PyExc (Option (List Json))) :
    Except PyExc (List Json) × Nat :=
  if address.isEmpty then (.error (PyExc.rpc "Address cannot be empty"), 0)
  else if limit < 1 ∨ 1000 < limit then
    (.error (PyExc.rpc "Limit must be between 1 and 1000"), 0)
  else
    match rpcResult with
    | .error e => (.error (wrapOther "Failed to fetch signatures: " e), 1)
    | .ok none => (.ok [], 1)
    | .ok (some xs) => (.ok xs, 1)

/-! ## Response models (app/models/schemas.py) -/

/-- The base58 alphabet of `validate_address`: alphanumerics without the
visually ambiguous `0`, `O`, `I`, `l`. -/
def base58Chars : List Char :=
  "123456789ABCDEFGHJKLMNPQRSTUVWXYZabcdefghijkmnopqrstuvwxyz".toList

/-- The pydantic `validate_address` field validator shared by `WalletSummary`
and `TransactionList`: nonempty, length 32..44, every character in the
base58 alphabet. It runs when a response object is constructed — after the
route's own length-only check and after the RPC calls. -/
def schemaValidAddress (a : String) : Bool :=
  !a.isEmpty && decide (32 ≤ a.length) && decide (a.length ≤ 44)
    && a.toList.all (fun c => base58Chars.contains c)

/-- One entry of a `TransactionList` (the `Transaction` pydantic model).
`signature`, `slot` and `fee` keep the JSON value placed in them (pydantic
coercion is the identity on the well-typed values every claim instantiates);
`block_time` is Unix seconds. -/
structure Transaction where
  signature : Json
  block_time : Int
  slot : Json
  status : String
  fee : Json

/-- The `WalletSummary` response model. -/
structure WalletSummary where
  address : String
  balance : ℚ
  balance_lamports : Int
  tx_count : Nat
  last_active : Option Int

/-- The `TransactionList` response model. -/
structure TransactionList where
  address : String
  transactions : List Transaction
  count : Nat

/-- Constructing a `WalletSummary` runs `validate_address`; a failure is a
pydantic `ValidationError` (not a `SolanaRPCError`). -/
def mkWalletSummary (address : String) (balance : ℚ) (lamports : Int)
    (txCount : Nat) (lastActive : Option Int) : Except PyExc WalletSummary :=
  if schemaValidAddress address then
    .ok ⟨address, balance, lamports, txCount, lastActive⟩
  else .error (PyExc.other "ValidationError")

/-- Constructing a `TransactionList` runs `validate_address` likewise. -/
def mkTransactionList (address : String) (txs : List Transaction) (count : Nat) :
    Except PyExc TransactionList :=
  if schemaValidAddress address then .ok ⟨address, txs, count⟩
  else .error (PyExc.other "ValidationError")

/-! ## Route handlers (app/routers/wallet.py) -/

/-- The route-level HTTP outcome: a successful response body or an
`HTTPException` status (400 invalid address, 503 `SolanaRPCError`,
500 any other exception). -/
inductive SummaryResponse where
  | ok (s : WalletSummary)
  | err (status : Nat)

/-- Outcome of the transactions route. -/
inductive TxResponse where
  | ok (l : TransactionList)
  | err (status : Nat)

/-- The `except SolanaRPCError` / `except Exception` tail of each route:
503 for an RPC error, 500 for anything else. -/
def errStatus : PyExc → Nat
  | PyExc.rpc _ => 503
  | PyExc.other _ => 500

/-- Oracles for the three client calls `get_wallet_summary` makes: the
`_call_rpc` outcome of `getBalance`, of `getSignaturesForAddress` with
limit 1, and of `getSignaturesForAddress` with limit 1000 (the count call).
The two signature results are null-or-array, the method's upstream shape. -/
structure SummaryOracles where
  balanceResult : Except PyExc Json
  sigs1Result : Except PyExc (Option (List Json))
  countResult : Except PyExc (Option (List Json))

/-- The `last_active` computation of the summary route: when the signature
list is nonempty, `block_time = signatures[0].get("blockTime")`, and only a
truthy value (so neither a missing or null field nor the integer 0) is
converted; a truthy non-integer would make `datetime.fromtimestamp` raise. -/
def lastActiveOf (sigs : List Json) : Except PyExc (Option Int) :=
  match sigs with
  | [] => .ok none
  | s0 :: _ =>
    match dictGetD s0 "blockTime" Json.null with
    | .error e => .error e
    | .ok bt =>
      if bt.truthy then
        match bt with
        | Json.num t => .ok (timestamp_to_datetime (some t))
        | _ => .error (PyExc.other "TypeError")
      else .ok none

/-- `GET /wallet/{address}/summary`: the route's own validation is the
length-only check `not address or len(address) < 32 or len(address) > 44`
(HTTP 400 before anything else); then sequentially `get_balance`,
`get_signatures(limit=1)`, `get_transaction_count`, the `last_active`
derivation, and the `WalletSummary` construction (whose pydantic validator
re-checks the address, base58 alphabet included). Returns the response and
the total number of `_call_rpc` invocations made. -/
def get_wallet_summary (address : String) (o : SummaryOracles) :
    SummaryResponse × Nat :=
  if address.isEmpty ∨ address.length < 32 ∨ 44 < address.length then
    (.err 400, 0)
  else
    match get_balance address o.balanceResult with
    | (.error e, c1) => (.err (errStatus e), c1)
    | (.ok balanceLamports, c1) =>
      match get_signatures address 1 o.sigs1Result with
      | (.error e, c2) => (.err (errStatus e), c1 + c2)
      | (.ok sigs, c2) =>
        match get_transaction_count address o.countResult with
        | (.error e, c3) => (.err (errStatus e), c1 + c2 + c3)
        | (.ok txCount, c3) =>
          match lastActiveOf sigs with
          | .error e => (.err (errStatus e), c1 + c2 + c3)
          | .ok lastActive =>
            match mkWalletSummary address (round9 (lamports_to_sol balanceLamports))
                balanceLamports txCount lastActive with
            | .ok s => (.ok s, c1 + c2 + c3)
            | .error e => (.err (errStatus e), c1 + c2 + c3)

/-- `tx_details.get("meta", {})` of the per-signature loop. -/
def metaOf (txDetails : Json) : Except PyExc Json :=
  dictGetD txDetails "meta" (Json.obj [])

/-- `fee = meta.get("fee", 0) if meta else 0`. -/
def feeOf (meta : Json) : Except PyExc Json :=
  if meta.truthy then dictGetD meta "fee" (Json.num 0) else .ok (Json.num 0)

/-- `err = meta.get("err") if meta else None`. -/
def errOf (meta : Json) : Except PyExc Json :=
  if meta.truthy then dictGetD meta "err" Json.null else .ok Json.null

/-- `status = "failed" if err else "success"`: Python truthiness of the err
value decides. -/
def statusOfErr (err : Json) : String :=
  if err.truthy then "failed" else "success"

/-- The body of one iteration of the transactions route's per-signature loop
(the inner `try`): skip (`.ok none`) on a falsy signature or a `None`
detail result; any exception — from the detail fetch or from the processing
of this entry — is `.error` and the loop's `except Exception` turns it into
a skip. `fetch` is `get_transaction_details` as an oracle keyed by the
signature value. -/
def processEntry (fetch : Json → Except PyExc Json) (sigData : Json) :
    Except PyExc (Option Transaction) :=
  match dictGetD sigData "signature" Json.null with
  | .error e => .error e
  | .ok sigVal =>
    if !sigVal.truthy then .ok none
    else
      match fetch sigVal with
      | .error e => .error e
      | .ok Json.null => .ok none
      | .ok txDetails =>
        match metaOf txDetails with
        | .error e => .error e
        | .ok meta =>
          match feeOf meta with
          | .error e => .error e
          | .ok fee =>
            match errOf meta with
            | .error e => .error e
            | .ok err =>
              match dictGetD sigData "blockTime" Json.null with
              | .error e => .error e
              | .ok btRaw =>
                match btRaw with
                | Json.null =>
                  -- block_time_dt is None; `or` substitutes the epoch
                  match dictGetD sigData "slot" (Json.num 0) with
                  | .error e => .error e
                  | .ok slot =>
                    .ok (some ⟨sigVal, 0, slot, statusOfErr err, fee⟩)
                | Json.num t =>
                  match dictGetD sigData "slot" (Json.num 0) with
                  | .error e => .error e
                  | .ok slot =>
                    .ok (some ⟨sigVal, t, slot, statusOfErr err, fee⟩)
                | _ => .error (PyExc.other "TypeError")

/-- Whether the iteration on `sigData` reaches the detail fetch (1) or skips
before it (0): only a truthy signature value is fetched. -/
def entryFetches (sigData : Json) : Nat :=
  match dictGetD sigData "signature" Json.null with
  | .error _ => 0
  | .ok v => if v.truthy then 1 else 0

/-- The whole per-signature loop: each entry that processes to a record is
appended in order, every other outcome (skip or caught exception) leaves the
list unchanged and processing continues. Also counts detail fetches. -/
def processSignatures (fetch : Json → Except PyExc Json) :
    List Json → List Transaction × Nat
  | [] => ([], 0)
  | s :: rest =>
    let tail := processSignatures fetch rest
    ((match processEntry fetch s with
      | .ok (some t) => [t]
      | _ => []) ++ tail.1,
     entryFetches s + tail.2)

/-- `GET /wallet/{address}/transactions`: the same length-only address check
(400 before anything else), one `get_signatures` call (its `_call_rpc`
outcome is `sigsResult`), the early empty return, then the per-signature
loop and the `TransactionList` construction with `count=len(transactions)`.
Returns the response, the number of `_call_rpc` invocations made by the
signatures lookup, and the number of detail fetches. -/
def get_wallet_transactions (address : String) (limit : Nat)
    (sigsResult : Except PyExc (Option (List Json)))
    (fetch : Json → Except PyExc Json) : TxResponse × Nat × Nat :=
  if address.isEmpty ∨ address.length < 32 ∨ 44 < address.length then
    (.err 400, 0, 0)
  else
    match get_signatures address limit sigsResult with
    | (.error e, c) => (.err (errStatus e), c, 0)
    | (.ok sigs, c) =>
      if sigs.isEmpty then
        match mkTransactionList address [] 0 with
        | .ok l => (.ok l, c, 0)
        | .error e => (.err (errStatus e), c, 0)
      else
        match processSignatures fetch sigs with
        | (txs, fetches) =>
          match mkTransactionList address txs txs.length with
          | .ok l => (.ok l, c, fetches)
          | .error e => (.err (errStatus e), c, fetches)

/-! ## Theorems -/

/-- An attempt outcome the two `except` clauses retry on. -/
def transientOutcome (a : AttemptOutcome) : Prop :=
  a = AttemptOutcome.timeout ∨ ∃ m, a = AttemptOutcome.requestError m

theorem callRpcGo_transient (attempts : Nat → AttemptOutcome) (maxRetries : Nat)
    (h : ∀ i, transientOutcome (attempts i)) :
    ∀ fuel made, (callRpcGo attempts maxRetries made fuel).2 = made + fuel ∧
      ∃ m, (callRpcGo attempts maxRetries made fuel).1 = .error (PyExc.rpc m) := by
  intro fuel
  induction fuel with
  | zero =>
    intro made
    exact ⟨rfl, "Max retries exceeded", rfl⟩
  | succ n ih =>
    intro made
    rcases h made with ht | ⟨m, hm⟩
    · rw [show callRpcGo attempts maxRetries made (n + 1) =
          (if n = 0 then
            (.error (PyExc.rpc ("RPC request timed out after " ++ toString maxRetries ++ " retries")),
              made + 1)
          else callRpcGo attempts maxRetries (made + 1) n) by
        simp [callRpcGo, ht]]
      by_cases hn : n = 0
      · subst hn
        simp
      · rw [if_neg hn]
        obtain ⟨h1, h2⟩ := ih (made + 1)
        refine ⟨by omega, h2⟩
    · rw [show callRpcGo attempts maxRetries made (n + 1) =
          (if n = 0 then
            (.error (PyExc.rpc ("RPC request failed: " ++ m)), made + 1)
          else callRpcGo attempts maxRetries (made + 1) n) by
        simp [callRpcGo, hm]]
      by_cases hn : n = 0
      · subst hn
        simp
      · rw [if_neg hn]
        obtain ⟨h1, h2⟩ := ih (made + 1)
        refine ⟨by omega, h2⟩

/-- C2 (amended): for every RPC call whose every attempt fails with a timeout
or a connection-level request failure, the transport makes exactly
max_retries attempts with no backoff and then fails with a terminal
SolanaRPCError; no additional hidden retries occur. (The claim's inclusion
of non-2xx responses among the retried transport failures is refuted
separately: `raise_for_status` raises an exception the retry clauses do not
catch.) -/
theorem rpc_retry_exhaustion (attempts : Nat → AttemptOutcome) (maxRetries : Nat)
    (h : ∀ i, transientOutcome (attempts i)) :
    (callRpc attempts maxRetries).2 = maxRetries ∧
      ∃ m, (callRpc attempts maxRetries).1 = .error (PyExc.rpc m) := by
  have := callRpcGo_transient attempts maxRetries h maxRetries 0
  simpa [callRpc] using this

theorem rpc_retry_exhaustion_witness :
    (callRpc (fun _ => AttemptOutcome.timeout) 3).2 = 3 ∧
      ∃ m, (callRpc (fun _ => AttemptOutcome.timeout) 3).1 = .error (PyExc.rpc m) :=
  rpc_retry_exhaustion (fun _ => AttemptOutcome.timeout) 3
    (fun _ => Or.inl rfl)

/-- C2 (counterexample): a transport whose every attempt is a non-2xx HTTP
response — which the claim counts among the retried transport failures —
makes exactly one attempt out of max_retries = 3, and the terminal error is
the uncaught `httpx.HTTPStatusError`, not a SolanaRPCError. -/
theorem rpc_non2xx_not_retried :
    callRpc (fun _ => AttemptOutcome.httpStatusError) 3 =
      (.error (PyExc.other "HTTPStatusError"), 1) ∧
    (callRpc (fun _ => AttemptOutcome.httpStatusError) 3).2 ≠ 3 ∧
    isRpcFailure (callRpc (fun _ => AttemptOutcome.httpStatusError) 3).1 = false :=
  ⟨rfl, by decide, rfl⟩

/-- C5 (amended): a successful HTTP response whose JSON body carries an
error field whose value is an object is translated into a terminal
SolanaRPCError after that single attempt, with no retry; when the error
field's value is not an object the call still terminates after that single
attempt with no retry, but with an uncaught AttributeError instead. -/
theorem rpc_protocol_error_no_retry (attempts : Nat → AttemptOutcome)
    (maxRetries : Nat) (body : List (String × Json)) (ekvs : List (String × Json))
    (hmax : 1 ≤ maxRetries)
    (h0 : attempts 0 = AttemptOutcome.response body)
    (herr : lookupKV body "error" = some (Json.obj ekvs)) :
    callRpc attempts maxRetries =
      (.error (PyExc.rpc ("RPC error: " ++
        pyStr (lookupD ekvs "message" (Json.str "Unknown error")))), 1) := by
  obtain ⟨k, rfl⟩ : ∃ k, maxRetries = k + 1 := ⟨maxRetries - 1, by omega⟩
  simp [callRpc, callRpcGo, h0, handleResponse, herr]

theorem rpc_protocol_error_no_retry_witness :
    callRpc (fun _ => AttemptOutcome.response
        [("error", Json.obj [("message", Json.str "boom")])]) 3 =
      (.error (PyExc.rpc ("RPC error: " ++
        pyStr (lookupD [("message", Json.str "boom")] "message"
          (Json.str "Unknown error")))), 1) :=
  rpc_protocol_error_no_retry
    (fun _ => AttemptOutcome.response [("error", Json.obj [("message", Json.str "boom")])])
    3 [("error", Json.obj [("message", Json.str "boom")])]
    [("message", Json.str "boom")] (by decide) rfl rfl

/-- C5 (counterexample): a 2xx response whose body is the concrete JSON
object with an error field holding null makes the transport raise an
uncaught AttributeError — not a SolanaRPCError — after one attempt. -/
theorem rpc_null_error_counterexample :
    callRpc (fun _ => AttemptOutcome.response [("error", Json.null)]) 3 =
      (.error (PyExc.other "AttributeError"), 1) ∧
    isRpcFailure
      (callRpc (fun _ => AttemptOutcome.response [("error", Json.null)]) 3).1 = false :=
  ⟨rfl, rfl⟩

/-- C8: the unit converter divides its integer input by the fixed constant
10^9 with no rounding (multiplying back by 10^9 recovers the input exactly),
and on the spec's test values toDisplayUnit(1000000000) = 1.0 and
toDisplayUnit(1420000000) = 1.42. -/
theorem lamports_to_sol_exact_division :
    (∀ l : ℤ, lamports_to_sol l * 1000000000 = (l : ℚ)) ∧
    lamports_to_sol 1000000000 = 1 ∧
    lamports_to_sol 1420000000 = (1.42 : ℚ) := by
  refine ⟨fun l => ?_, by norm_num [lamports_to_sol, LAMPORTS_PER_SOL],
    by norm_num [lamports_to_sol, LAMPORTS_PER_SOL]⟩
  simp [lamports_to_sol, LAMPORTS_PER_SOL]

theorem schemaValid_facts (a : String) (h : schemaValidAddress a = true) :
    a.isEmpty = false ∧ 32 ≤ a.length ∧ a.length ≤ 44 := by
  simp only [schemaValidAddress, Bool.and_eq_true, Bool.not_eq_true',
    decide_eq_true_eq] at h
  exact ⟨h.1.1.1, h.1.1.2, h.1.2⟩

theorem routeGuard_false (a : String) (h : schemaValidAddress a = true) :
    ¬(a.isEmpty = true ∨ a.length < 32 ∨ 44 < a.length) := by
  obtain ⟨h1, h2, h3⟩ := schemaValid_facts a h
  rintro (he | hl | hl)
  · rw [h1] at he
    exact Bool.false_ne_true he
  · omega
  · omega

/-- C1 (amended): only the length check runs before any RPC call — every
address whose length is outside [32,44] (the empty address included) makes
both the summary and the transactions operations fail with HTTP 400 and
zero RPC calls. An address of valid length that contains characters outside
the base58 alphabet is NOT rejected before the RPC calls; see the
counterexample, where the calls are made and the failure is a 500 at
response construction. -/
theorem route_length_validation (address : String)
    (h : address.length < 32 ∨ 44 < address.length)
    (o : SummaryOracles) (limit : Nat)
    (sigsResult : Except PyExc (Option (List Json)))
    (fetch : Json → Except PyExc Json) :
    get_wallet_summary address o = (.err 400, 0) ∧
    get_wallet_transactions address limit sigsResult fetch = (.err 400, 0, 0) := by
  constructor
  · unfold get_wallet_summary
    rw [if_pos (Or.inr h)]
  · unfold get_wallet_transactions
    rw [if_pos (Or.inr h)]

theorem route_length_validation_witness :
    get_wallet_summary "abc" ⟨.ok Json.null, .ok none, .ok none⟩ = (.err 400, 0) ∧
    get_wallet_transactions "abc" 10 (.ok none) (fun _ => .ok Json.null) =
      (.err 400, 0, 0) :=
  route_length_validation "abc" (Or.inl (by decide))
    ⟨.ok Json.null, .ok none, .ok none⟩ 10 (.ok none) (fun _ => .ok Json.null)

/-- C1 (counterexample): the address of 32 zeros has valid length but
contains the excluded character `0`; on it, with every RPC stubbed to
succeed, the summary operation makes its 3 RPC calls and then fails with
HTTP 500 (the pydantic validator at response construction), and the
transactions operation makes its signature RPC call and then fails with
HTTP 500 — neither fails with a 400-class error before a network call. -/
theorem base58_invalid_goes_to_rpc_counterexample :
    ("00000000000000000000000000000000" : String).length = 32 ∧
    schemaValidAddress "00000000000000000000000000000000" = false ∧
    get_wallet_summary "00000000000000000000000000000000"
      ⟨.ok (Json.num 0), .ok none, .ok none⟩ = (.err 500, 3) ∧
    get_wallet_transactions "00000000000000000000000000000000" 10 (.ok none)
      (fun _ => .ok Json.null) = (.err 500, 1, 0) :=
  ⟨rfl, rfl, rfl, rfl⟩

theorem get_wallet_summary_eval (address : String) (o : SummaryOracles)
    (bal : Int) (sl : List Json) (n : Nat) (la : Option Int)
    (ha : schemaValidAddress address = true)
    (hb : o.balanceResult = .ok (Json.num bal))
    (hs : o.sigs1Result = .ok (some sl))
    (hc : get_transaction_count address o.countResult = (.ok n, 1))
    (hla : lastActiveOf sl = .ok la) :
    get_wallet_summary address o =
      (.ok ⟨address, round9 (lamports_to_sol bal), bal, n, la⟩, 3) := by
  obtain ⟨h1, h2, h3⟩ := schemaValid_facts address ha
  have hbal : get_balance address (.ok (Json.num bal)) = (.ok bal, 1) := by
    simp [get_balance, h1, pyInt]
  have hsig : get_signatures address 1 (.ok (some sl)) = (.ok sl, 1) := by
    simp [get_signatures, h1]
  unfold get_wallet_summary
  rw [if_neg (routeGuard_false address ha)]
  rw [hb, hs, hbal, hsig, hc]
  simp [mkWalletSummary, ha, hla]

theorem get_transaction_count_list (address : String) (xs : List Json)
    (h1 : address.isEmpty = false) :
    get_transaction_count address (.ok (some xs)) = (.ok xs.length, 1) := by
  simp [get_transaction_count, h1]
  intro h
  simp [h]

/-- C6: the summary's tx_count is the length of the signature list the
single getSignaturesForAddress call with limit 1000 returned (0 when that
list is absent or empty), so whenever the upstream honors the limit — every
list it returns has at most 1000 entries — tx_count is at most 1000
regardless of the wallet's true history length. -/
theorem summary_tx_count_capped (address : String) (o : SummaryOracles)
    (bal : Int) (sl : List Json) (cnt : Option (List Json)) (la : Option Int)
    (ha : schemaValidAddress address = true)
    (hb : o.balanceResult = .ok (Json.num bal))
    (hs : o.sigs1Result = .ok (some sl))
    (hla : lastActiveOf sl = .ok la)
    (hc : o.countResult = .ok cnt) :
    ∃ s, get_wallet_summary address o = (.ok s, 3) ∧
      s.tx_count = (match cnt with | none => 0 | some xs => xs.length) ∧
      ((∀ xs, cnt = some xs → xs.length ≤ 1000) → s.tx_count ≤ 1000) := by
  obtain ⟨h1, _, _⟩ := schemaValid_facts address ha
  cases cnt with
  | none =>
    refine ⟨_, get_wallet_summary_eval address o bal sl 0 la ha hb hs ?_ hla, rfl,
      fun _ => by simp⟩
    rw [hc]
    simp [get_transaction_count, h1]
  | some xs =>
    refine ⟨_, get_wallet_summary_eval address o bal sl xs.length la ha hb hs ?_ hla,
      rfl, fun hcap => hcap xs rfl⟩
    rw [hc]
    exact get_transaction_count_list address xs h1

theorem summary_tx_count_capped_witness :
    ∃ s, get_wallet_summary "7xKXtg2CW87d97TXJSDpbD5jBkheTqA83TZRuJosgAsU"
        ⟨.ok (Json.num 1420000000), .ok (some []),
          .ok (some [Json.obj [("signature", Json.str "S1")],
            Json.obj [("signature", Json.str "S2")]])⟩ = (.ok s, 3) ∧
      s.tx_count = (match (some [Json.obj [("signature", Json.str "S1")],
            Json.obj [("signature", Json.str "S2")]] : Option (List Json)) with
          | none => 0 | some xs => xs.length) ∧
      ((∀ xs, (some [Json.obj [("signature", Json.str "S1")],
            Json.obj [("signature", Json.str "S2")]] : Option (List Json)) = some xs →
          xs.length ≤ 1000) → s.tx_count ≤ 1000) :=
  summary_tx_count_capped "7xKXtg2CW87d97TXJSDpbD5jBkheTqA83TZRuJosgAsU"
    ⟨.ok (Json.num 1420000000), .ok (some []),
      .ok (some [Json.obj [("signature", Json.str "S1")],
        Json.obj [("signature", Json.str "S2")]])⟩
    1420000000 [] (some [Json.obj [("signature", Json.str "S1")],
      Json.obj [("signature", Json.str "S2")]]) none rfl rfl rfl rfl rfl

theorem lastActiveOf_absent (sl : List Json)
    (hshape : sl = [] ∨ ∃ kvs rest, sl = Json.obj kvs :: rest ∧
      (lookupD kvs "blockTime" Json.null = Json.null ∨
       lookupD kvs "blockTime" Json.null = Json.num 0)) :
    lastActiveOf sl = .ok none := by
  rcases hshape with rfl | ⟨kvs, rest, rfl, hbt | hbt⟩
  · rfl
  · simp [lastActiveOf, dictGetD, hbt, Json.truthy]
  · simp [lastActiveOf, dictGetD, hbt, Json.truthy]

/-- C10: in the summary operation, last_active is absent whenever the wallet
has no signatures, and also whenever the most recent signature's blockTime
field is missing or null (both make the dict lookup yield None) or equal to
0 — the `if block_time:` truthiness test treats the zero timestamp exactly
like absence. -/
theorem summary_last_active_absent (address : String) (o : SummaryOracles)
    (bal : Int) (sl : List Json) (n : Nat)
    (ha : schemaValidAddress address = true)
    (hb : o.balanceResult = .ok (Json.num bal))
    (hs : o.sigs1Result = .ok (some sl))
    (hc : get_transaction_count address o.countResult = (.ok n, 1))
    (hshape : sl = [] ∨ ∃ kvs rest, sl = Json.obj kvs :: rest ∧
      (lookupD kvs "blockTime" Json.null = Json.null ∨
       lookupD kvs "blockTime" Json.null = Json.num 0)) :
    ∃ s, get_wallet_summary address o = (.ok s, 3) ∧ s.last_active = none :=
  ⟨_, get_wallet_summary_eval address o bal sl n none ha hb hs hc
      (lastActiveOf_absent sl hshape), rfl⟩

theorem summary_last_active_absent_witness :
    ∃ s, get_wallet_summary "7xKXtg2CW87d97TXJSDpbD5jBkheTqA83TZRuJosgAsU"
        ⟨.ok (Json.num 7), .ok (some [Json.obj [("blockTime", Json.num 0)]]),
          .ok (some [])⟩ = (.ok s, 3) ∧ s.last_active = none :=
  summary_last_active_absent "7xKXtg2CW87d97TXJSDpbD5jBkheTqA83TZRuJosgAsU"
    ⟨.ok (Json.num 7), .ok (some [Json.obj [("blockTime", Json.num 0)]]),
      .ok (some [])⟩ 7 [Json.obj [("blockTime", Json.num 0)]] 0 rfl rfl rfl rfl
    (Or.inr ⟨[("blockTime", Json.num 0)], [], rfl, Or.inr rfl⟩)

/-- C9: for a successful balance lookup, a None (absent) RPC result yields
balance 0, and a dict result yields the integer value of its "value" field,
0 when the field is missing; on these shapes the operation succeeds (no
exception is raised). -/
theorem get_balance_shapes (address : String) (kvs : List (String × Json))
    (n : Int) (ha : address.isEmpty = false) :
    get_balance address (.ok Json.null) = (.ok 0, 1) ∧
    (lookupKV kvs "value" = none →
      get_balance address (.ok (Json.obj kvs)) = (.ok 0, 1)) ∧
    (lookupKV kvs "value" = some (Json.num n) →
      get_balance address (.ok (Json.obj kvs)) = (.ok n, 1)) := by
  refine ⟨by simp [get_balance, ha], fun h => ?_, fun h => ?_⟩
  · simp [get_balance, ha, lookupD, h, pyInt]
  · simp [get_balance, ha, lookupD, h, pyInt]

theorem get_balance_shapes_witness :
    get_balance "7xKXtg2CW87d97TXJSDpbD5jBkheTqA83TZRuJosgAsU" (.ok Json.null) =
      (.ok 0, 1) ∧
    (lookupKV [("value", Json.num 1420000000)] "value" = none →
      get_balance "7xKXtg2CW87d97TXJSDpbD5jBkheTqA83TZRuJosgAsU"
        (.ok (Json.obj [("value", Json.num 1420000000)])) = (.ok 0, 1)) ∧
    (lookupKV [("value", Json.num 1420000000)] "value" = some (Json.num 1420000000) →
      get_balance "7xKXtg2CW87d97TXJSDpbD5jBkheTqA83TZRuJosgAsU"
        (.ok (Json.obj [("value", Json.num 1420000000)])) = (.ok 1420000000, 1)) :=
  get_balance_shapes "7xKXtg2CW87d97TXJSDpbD5jBkheTqA83TZRuJosgAsU"
    [("value", Json.num 1420000000)] 1420000000 rfl

/-- C7: for every valid address whose signature lookup returns no signatures
(a null result or an empty array), the transactions operation returns the
response with that address, an empty transaction list and count 0 at once:
one RPC call was made (the signature lookup itself) and zero transaction
details were fetched. -/
theorem tx_empty_signatures (address : String) (limit : Nat)
    (fetch : Json → Except PyExc Json) (so : Option (List Json))
    (ha : schemaValidAddress address = true)
    (hl : 1 ≤ limit ∧ limit ≤ 1000)
    (hso : so = none ∨ so = some []) :
    get_wallet_transactions address limit (.ok so) fetch =
      (.ok ⟨address, [], 0⟩, 1, 0) := by
  obtain ⟨h1, _, _⟩ := schemaValid_facts address ha
  unfold get_wallet_transactions
  rw [if_neg (routeGuard_false address ha)]
  have hlim : ¬(limit < 1 ∨ 1000 < limit) := by omega
  have hlim0 : ¬(limit = 0 ∨ 1000 < limit) := by omega
  rcases hso with rfl | rfl <;>
    simp [get_signatures, h1, hlim, hlim0, mkTransactionList, ha]

theorem tx_empty_signatures_witness :
    get_wallet_transactions "7xKXtg2CW87d97TXJSDpbD5jBkheTqA83TZRuJosgAsU" 10
      (.ok none) (fun _ => .ok Json.null) =
      (.ok ⟨"7xKXtg2CW87d97TXJSDpbD5jBkheTqA83TZRuJosgAsU", [], 0⟩, 1, 0) :=
  tx_empty_signatures "7xKXtg2CW87d97TXJSDpbD5jBkheTqA83TZRuJosgAsU" 10
    (fun _ => .ok Json.null) none rfl (by omega) (Or.inl rfl)

theorem processSignatures_append (fetch : Json → Except PyExc Json)
    (xs ys : List Json) :
    processSignatures fetch (xs ++ ys) =
      ((processSignatures fetch xs).1 ++ (processSignatures fetch ys).1,
       (processSignatures fetch xs).2 + (processSignatures fetch ys).2) := by
  induction xs with
  | nil => simp [processSignatures]
  | cons s rest ih =>
    simp [processSignatures, ih, List.append_assoc, Nat.add_assoc]

theorem processSignatures_all_ok (fetch : Json → Except PyExc Json)
    (xs : List Json)
    (h : ∀ s ∈ xs, ∃ t, processEntry fetch s = .ok (some t)) :
    (processSignatures fetch xs).1.length = xs.length := by
  induction xs with
  | nil => rfl
  | cons s rest ih =>
    obtain ⟨t, ht⟩ := h s (by simp)
    have hrest := ih (fun a hha => h a (by simp [hha]))
    simp [processSignatures, ht, hrest]

theorem get_wallet_transactions_processed (address : String) (limit : Nat)
    (sigs : List Json) (fetch : Json → Except PyExc Json)
    (ha : schemaValidAddress address = true)
    (hl : 1 ≤ limit ∧ limit ≤ 1000)
    (hne : sigs.isEmpty = false) :
    (get_wallet_transactions address limit (.ok (some sigs)) fetch).1 =
      .ok ⟨address, (processSignatures fetch sigs).1,
        (processSignatures fetch sigs).1.length⟩ := by
  obtain ⟨h1, _, _⟩ := schemaValid_facts address ha
  have hlim : ¬(limit < 1 ∨ 1000 < limit) := by omega
  unfold get_wallet_transactions
  rw [if_neg (routeGuard_false address ha)]
  simp only [get_signatures, h1, Bool.false_eq_true, if_false, hlim, hne]
  simp [hne, mkTransactionList, ha]

/-- C3: over N signature entries of which exactly one fails — its detail
fetch or per-entry processing raises — while every other entry processes to
a record, the transactions operation succeeds and its list holds exactly
the N-1 surviving records with count = N-1: the raised error is confined
to its entry and does not abort the response. Moreover a None (absent)
detail result is likewise skipped: an entry with a truthy signature whose
detail fetch returns None processes to a skip (the `if tx_details is None:
continue` branch), and inserting such an entry into the same list leaves
the surviving records and the count unchanged. -/
theorem tx_per_item_isolation (address : String) (limit : Nat)
    (pre post : List Json) (bad : Json) (ndkvs : List (String × Json))
    (fetch : Json → Except PyExc Json)
    (ha : schemaValidAddress address = true)
    (hl : 1 ≤ limit ∧ limit ≤ 1000)
    (hpre : ∀ s ∈ pre, ∃ t, processEntry fetch s = .ok (some t))
    (hpost : ∀ s ∈ post, ∃ t, processEntry fetch s = .ok (some t))
    (hbad : ∃ e, processEntry fetch bad = .error e)
    (hndsig : (lookupD ndkvs "signature" Json.null).truthy = true)
    (hndfetch : fetch (lookupD ndkvs "signature" Json.null) = .ok Json.null) :
    (∃ l, (get_wallet_transactions address limit
        (.ok (some (pre ++ bad :: post))) fetch).1 = .ok l ∧
      l.transactions.length = pre.length + post.length ∧
      l.count = pre.length + post.length) ∧
    processEntry fetch (Json.obj ndkvs) = .ok none ∧
    (∃ l, (get_wallet_transactions address limit
        (.ok (some (pre ++ bad :: Json.obj ndkvs :: post))) fetch).1 = .ok l ∧
      l.transactions.length = pre.length + post.length ∧
      l.count = pre.length + post.length) := by
  obtain ⟨e, he⟩ := hbad
  have hnd : processEntry fetch (Json.obj ndkvs) = .ok none := by
    simp [processEntry, dictGetD, hndsig, hndfetch]
  have hb1 : (processSignatures fetch [bad]).1 = [] := by
    simp [processSignatures, he]
  have hnd1 : (processSignatures fetch [Json.obj ndkvs]).1 = [] := by
    simp [processSignatures, hnd]
  have hne1 : (pre ++ bad :: post).isEmpty = false := by
    cases pre <;> simp [List.isEmpty]
  have hne2 : (pre ++ bad :: Json.obj ndkvs :: post).isEmpty = false := by
    cases pre <;> simp [List.isEmpty]
  have hlen1 : (processSignatures fetch (pre ++ bad :: post)).1.length =
      pre.length + post.length := by
    have hsplit : pre ++ bad :: post = pre ++ [bad] ++ post := by simp
    rw [hsplit, processSignatures_append, processSignatures_append]
    simp [hb1, processSignatures_all_ok fetch pre hpre,
      processSignatures_all_ok fetch post hpost]
  have hlen2 : (processSignatures fetch
      (pre ++ bad :: Json.obj ndkvs :: post)).1.length =
      pre.length + post.length := by
    have hsplit : pre ++ bad :: Json.obj ndkvs :: post =
        pre ++ [bad] ++ [Json.obj ndkvs] ++ post := by simp
    rw [hsplit, processSignatures_append, processSignatures_append,
      processSignatures_append]
    simp [hb1, hnd1, processSignatures_all_ok fetch pre hpre,
      processSignatures_all_ok fetch post hpost]
  exact ⟨⟨_, get_wallet_transactions_processed address limit _ fetch ha hl hne1,
      hlen1, hlen1⟩,
    hnd,
    ⟨_, get_wallet_transactions_processed address limit _ fetch ha hl hne2,
      hlen2, hlen2⟩⟩

theorem tx_per_item_isolation_witness :
    (∃ l, (get_wallet_transactions "7xKXtg2CW87d97TXJSDpbD5jBkheTqA83TZRuJosgAsU"
        10
        (.ok (some ([Json.obj [("signature", Json.str "A"),
            ("blockTime", Json.num 100), ("slot", Json.num 5)]] ++
          Json.obj [("signature", Json.str "B"),
            ("blockTime", Json.num 200), ("slot", Json.num 6)] :: [])))
        (fun s => match s with
          | Json.str "A" =>
            .ok (Json.obj [("meta", Json.obj [("fee", Json.num 5000),
              ("err", Json.null)])])
          | Json.str "C" => .ok Json.null
          | _ => .error (PyExc.rpc "boom"))).1 = .ok l ∧
      l.transactions.length = [Json.obj [("signature", Json.str "A"),
          ("blockTime", Json.num 100), ("slot", Json.num 5)]].length +
        ([] : List Json).length ∧
      l.count = [Json.obj [("signature", Json.str "A"),
          ("blockTime", Json.num 100), ("slot", Json.num 5)]].length +
        ([] : List Json).length) ∧
    processEntry
      (fun s => match s with
        | Json.str "A" =>
          .ok (Json.obj [("meta", Json.obj [("fee", Json.num 5000),
            ("err", Json.null)])])
        | Json.str "C" => .ok Json.null
        | _ => .error (PyExc.rpc "boom"))
      (Json.obj [("signature", Json.str "C")]) = .ok none ∧
    (∃ l, (get_wallet_transactions "7xKXtg2CW87d97TXJSDpbD5jBkheTqA83TZRuJosgAsU"
        10
        (.ok (some ([Json.obj [("signature", Json.str "A"),
            ("blockTime", Json.num 100), ("slot", Json.num 5)]] ++
          Json.obj [("signature", Json.str "B"),
            ("blockTime", Json.num 200), ("slot", Json.num 6)] ::
          Json.obj [("signature", Json.str "C")] :: [])))
        (fun s => match s with
          | Json.str "A" =>
            .ok (Json.obj [("meta", Json.obj [("fee", Json.num 5000),
              ("err", Json.null)])])
          | Json.str "C" => .ok Json.null
          | _ => .error (PyExc.rpc "boom"))).1 = .ok l ∧
      l.transactions.length = [Json.obj [("signature", Json.str "A"),
          ("blockTime", Json.num 100), ("slot", Json.num 5)]].length +
        ([] : List Json).length ∧
      l.count = [Json.obj [("signature", Json.str "A"),
          ("blockTime", Json.num 100), ("slot", Json.num 5)]].length +
        ([] : List Json).length) :=
  tx_per_item_isolation "7xKXtg2CW87d97TXJSDpbD5jBkheTqA83TZRuJosgAsU" 10
    [Json.obj [("signature", Json.str "A"),
      ("blockTime", Json.num 100), ("slot", Json.num 5)]]
    []
    (Json.obj [("signature", Json.str "B"),
      ("blockTime", Json.num 200), ("slot", Json.num 6)])
    [("signature", Json.str "C")]
    (fun s => match s with
      | Json.str "A" =>
        .ok (Json.obj [("meta", Json.obj [("fee", Json.num 5000),
          ("err", Json.null)])])
      | Json.str "C" => .ok Json.null
      | _ => .error (PyExc.rpc "boom"))
    rfl (by omega)
    (by
      intro s hs
      simp only [List.mem_singleton] at hs
      subst hs
      exact ⟨_, rfl⟩)
    (by intro s hs; simp at hs)
    ⟨PyExc.rpc "boom", rfl⟩
    rfl rfl

/-- C4 (amended): for every transaction detail that is an object whose
"meta" lookup (defaulting to the empty object, so a missing meta is
included) yields the object mkvs, the status derivation reads err as
meta.get("err") — null when absent — and the record's status is "failed"
exactly when the meta object is truthy (non-empty) AND the err value is
truthy under Python truthiness. In particular a missing meta, an empty
meta, a missing or null err, and equally a present but falsy err (false,
0, an empty string, array or object) all yield "success". -/
theorem status_truthiness (dkvs mkvs : List (String × Json))
    (hm : lookupD dkvs "meta" (Json.obj []) = Json.obj mkvs) :
    metaOf (Json.obj dkvs) = .ok (Json.obj mkvs) ∧
    errOf (Json.obj mkvs) = .ok (lookupD mkvs "err" Json.null) ∧
    (statusOfErr (lookupD mkvs "err" Json.null) = "failed" ↔
      (Json.obj mkvs).truthy = true ∧
        (lookupD mkvs "err" Json.null).truthy = true) := by
  refine ⟨by simp [metaOf, dictGetD, hm], ?_, ?_⟩
  · by_cases ht : (Json.obj mkvs).truthy = true
    · simp [errOf, ht, dictGetD]
    · have hnil : mkvs = [] := by
        cases mkvs with
        | nil => rfl
        | cons p rest => simp [Json.truthy] at ht
      subst hnil
      simp [errOf, Json.truthy, lookupD, lookupKV]
  · by_cases ht : (Json.obj mkvs).truthy = true
    · by_cases he : (lookupD mkvs "err" Json.null).truthy = true
      · simp [statusOfErr, he, ht]
      · simp only [Bool.not_eq_true] at he
        simp [statusOfErr, he, ht]
    · have hnil : mkvs = [] := by
        cases mkvs with
        | nil => rfl
        | cons p rest => simp [Json.truthy] at ht
      subst hnil
      simp [statusOfErr, lookupD, lookupKV, Json.truthy, ht]

theorem status_truthiness_witness :
    metaOf (Json.obj []) = .ok (Json.obj []) ∧
    errOf (Json.obj []) = .ok (lookupD [] "err" Json.null) ∧
    (statusOfErr (lookupD [] "err" Json.null) = "failed" ↔
      (Json.obj ([] : List (String × Json))).truthy = true ∧
        (lookupD [] "err" Json.null).truthy = true) :=
  status_truthiness [] [] rfl

/-- C4 (counterexample): the concrete transaction detail whose meta.err
field is present and non-null but falsy — the boolean false — produces a
record with status "success", although the claim requires "failed" for
every present, non-null meta.err. The whole per-entry processing of the
loop is evaluated to show the produced record. -/
theorem status_falsy_err_counterexample :
    processEntry
      (fun _ => .ok (Json.obj [("meta", Json.obj [("err", Json.bool false)])]))
      (Json.obj [("signature", Json.str "S"), ("blockTime", Json.num 1),
        ("slot", Json.num 2)]) =
      .ok (some ⟨Json.str "S", 1, Json.num 2, "success", Json.num 0⟩) ∧
    lookupKV [("err", Json.bool false)] "err" = some (Json.bool false) ∧
    Json.bool false ≠ Json.null :=
  ⟨rfl, rfl, fun h => Json.noConfusion h⟩
